import Mathlib

/-!
# Verification of the whiteout type-erasure utilities

The repository (src/lib.rs) consists of two declarative Rust macros:

* eraser!(name, tr) expands to a single generic function item
      fn name<T: tr>(val: T) -> impl tr { val }
  i.e. a trait-bounded identity wrapper whose declared return type is the
  opaque type `impl tr`.

* erase!(val, tr) expands to the block
      { eraser!(f, tr); f(val) }
  i.e. it invokes the wrapper generator with the fixed internal name `f`
  inside a fresh block and immediately applies the generated wrapper once
  to the supplied value expression.

This development embeds both layers of meaning of that code:

* the *syntactic* layer: the macro templates, as functions from the macro
  arguments to an abstract syntax tree (`FnDef` for the generated function
  item, `Expr` for the block produced by the inline erasure macro);

* the *dynamic* layer: a fueled big-step evaluator `eval` for the expression
  language, which records a side-effect trace and returns errors explicitly,
  so that claims about identity behaviour, single evaluation of the argument
  and absence of runtime failure can be stated and proved;

* the *static* layer: the identity of the opaque return type.  Rust assigns
  to an `impl Trait` in return position of a generic function one opaque
  type per (function definition site, concrete instantiation of the generic
  parameters).  `OpaqueId` records exactly those components, and
  `opaqueRetTy` gives the opaque return type of a call to a generated
  wrapper at a given definition site and concrete argument type.

Function items introduced by a declarative macro are *not* hygienic in Rust
(only local variables and labels are renamed), so the `fn f` placed by
erase! into its block is visible to the caller-supplied value expression
that is expanded in the same block.  The evaluator models name resolution
by innermost-first lookup in the list of function items in scope, which
reproduces this shadowing behaviour.
-/

namespace Whiteout

/-- Expressions of the modelled fragment of the host language.  Besides
literals, variables, unary calls and addition (the capability used in all of
the crate's own examples), `eff k e` is an expression that performs an
observable side effect tagged `k` and then behaves as `e`; it lets the
evaluation-count and side-effect claims be stated.  `blockFn fname bound
param body tail` is a block that defines the single function item
`fn fname<T: bound>(param: T) -> impl bound { body }` and then evaluates
`tail` in its scope, exactly the shape produced by the erase! macro. -/
inductive Expr where
  | lit : Int → Expr
  | var : String → Expr
  | call : String → Expr → Expr
  | add : Expr → Expr → Expr
  | eff : Nat → Expr → Expr
  | blockFn : String → List String → String → Expr → Expr → Expr
deriving DecidableEq

/-- A generated function item: name, trait-bound tokens (used both as the
generic bound on `T` and as the opaque return bound `impl tr`), parameter
name and body.  This is the shape of the single item produced by the
eraser! macro. -/
structure FnDef where
  fnName : String
  bound : List String
  paramName : String
  body : Expr
deriving DecidableEq

/-- Embedding of the eraser! macro template (src/lib.rs lines 100-108):
eraser!(name, tr) expands to `fn name<T: tr>(val: T) -> impl tr { val }`.
The parameter name `val` and the identity body are fixed by the template;
only the function name and the trait tokens are substituted. -/
def eraser (name : String) (tr : List String) : FnDef :=
  { fnName := name, bound := tr, paramName := "val", body := Expr.var "val" }

/-- The runtime view of a function item: (name, parameter, body).  The trait
bound is erased at runtime (the generated wrapper is a plain identity
function; the bound only participates in type checking). -/
def toEntry (fd : FnDef) : String × String × Expr :=
  (fd.fnName, fd.paramName, fd.body)

/-- Place a function item at the head of a block, scoping it over the tail
expression. -/
def defineIn (fd : FnDef) (tail : Expr) : Expr :=
  Expr.blockFn fd.fnName fd.bound fd.paramName fd.body tail

/-- Embedding of the erase! macro template (src/lib.rs lines 131-140):
erase!(v, tr) expands to a block that invokes eraser!(f, tr) and then
immediately evaluates `f(v)`.  The internal name `f` is fixed by the
template. -/
def erase (v : Expr) (tr : List String) : Expr :=
  defineIn (eraser "f" tr) (Expr.call "f" v)

/-- Modelled from the spec (section 4.2): the inline erasure "introduces a
new, lexically scoped block", "invokes the Wrapper Generator (4.1) with a
fixed internal name and the supplied capability-set expression", and
"immediately calls that freshly generated wrapper function with the supplied
value expression as its single argument"; the block evaluates to the
wrapper's return value.  Stated independently of `erase` so the two can be
compared. -/
def eraseSpecModel (v : Expr) (tr : List String) : Expr :=
  Expr.blockFn (eraser "f" tr).fnName (eraser "f" tr).bound
    (eraser "f" tr).paramName (eraser "f" tr).body
    (Expr.call (eraser "f" tr).fnName v)

/-- Runtime errors of the evaluator: an unbound variable, an unbound
function name, or fuel exhaustion (the fragment itself has no recursion, so
fuel exhaustion never occurs at sufficient fuel). -/
inductive RtError where
  | unboundVar
  | unboundFn
  | outOfFuel
deriving DecidableEq

/-- Innermost-first lookup of a local variable. -/
def lookupEnv : List (String × Int) → String → Option Int
  | [], _ => none
  | (n, v) :: rest, x => if x = n then some v else lookupEnv rest x

/-- Innermost-first lookup of a function item; an item defined in an inner
block shadows any outer item of the same name, as in Rust, where items
introduced by a declarative macro are not hygienically renamed. -/
def lookupFn : List (String × String × Expr) → String → Option (String × Expr)
  | [], _ => none
  | (n, p, b) :: rest, x => if x = n then some (p, b) else lookupFn rest x

/-- Fueled big-step evaluator.  Returns the value together with the trace of
side effects performed, in order, or a runtime error.  Function calls
evaluate the argument once, then the body in a fresh environment binding
only the parameter. -/
def eval : Nat → List (String × String × Expr) → List (String × Int) → Expr →
    Except RtError (Int × List Nat)
  | 0, _, _, _ => Except.error RtError.outOfFuel
  | n + 1, fns, env, e =>
    match e with
    | Expr.lit k => Except.ok (k, [])
    | Expr.var x =>
      match lookupEnv env x with
      | some v => Except.ok (v, [])
      | none => Except.error RtError.unboundVar
    | Expr.add a b => do
      let (va, ta) ← eval n fns env a
      let (vb, tb) ← eval n fns env b
      pure (va + vb, ta ++ tb)
    | Expr.eff k a => do
      let (va, ta) ← eval n fns env a
      pure (va, k :: ta)
    | Expr.call fname arg =>
      match lookupFn fns fname with
      | some (p, body) => do
        let (va, ta) ← eval n fns env arg
        let (vb, tb) ← eval n fns [(p, va)] body
        pure (vb, ta ++ tb)
      | none => Except.error RtError.unboundFn
    | Expr.blockFn fname _bd p fb tail => eval n ((fname, p, fb) :: fns) env tail

/-- Whether an evaluation succeeded. -/
def evalOk (r : Except RtError (Int × List Nat)) : Bool :=
  match r with
  | Except.ok _ => true
  | Except.error _ => false

/-- Identity of an opaque `impl Trait` return type in Rust.  For a generic
function `fn name<T: tr>(val: T) -> impl tr`, the compiler mints one opaque
type per function *definition site* and per *concrete instantiation* of the
generic parameter `T`; two opaque types are the same type exactly when both
components agree.  `bound` is carried along because the wrapper's bound is
part of the definition. -/
structure OpaqueId where
  defSite : Nat
  bound : List String
  concArg : String
deriving DecidableEq

/-- The opaque return type of a call to the wrapper `fd`, whose definition
site is `site`, at the concrete argument type `argTy`. -/
def opaqueRetTy (site : Nat) (fd : FnDef) (argTy : String) : OpaqueId :=
  ⟨site, fd.bound, argTy⟩

/-- The opaque type of the result of an erase! invocation: the invocation
expands to its own function definition (at its own fresh definition site
`site`), so the result's opaque type is that of the freshly generated
wrapper. -/
def eraseRetTy (site : Nat) (tr : List String) (argTy : String) : OpaqueId :=
  opaqueRetTy site (eraser "f" tr) argTy

/-- Whether the compiler accepts combining two erased operands under an
operation whose contract requires both operands to have the same underlying
type (for example `Add<Self, Output = Self>`): this requires the two opaque
types to be the same type. -/
def sameTypeOpOk (a b : OpaqueId) : Bool :=
  decide (a = b)

/-- Expansion of eraser! at a given invocation context (expansion site).
Declarative macro expansion is pure token substitution: the produced
function definition depends only on the supplied name and trait tokens,
never on the ambient context, so the context argument does not influence
the result. -/
def eraserExpandAt (_ctx : Nat) (name : String) (tr : List String) : FnDef :=
  eraser name tr

/-- Binding a successful evaluation result reduces. -/
@[simp]
theorem ok_bind {ε α β : Type} (a : α) (f : α → Except ε β) :
    (Except.ok a : Except ε α) >>= f = f a := rfl

/-- Evaluation at fuel zero never succeeds, so a successful evaluation had
positive fuel. -/
theorem eval_zero_not_ok (fns : List (String × String × Expr))
    (env : List (String × Int)) (e : Expr) (v : Int) (t : List Nat) :
    eval 0 fns env e ≠ Except.ok (v, t) := by
  simp [eval]

/-- Evaluation of a call whose function name resolves: the argument is
evaluated, then the body in a fresh environment binding the parameter. -/
theorem eval_call_ok (n : Nat) (fns : List (String × String × Expr))
    (env : List (String × Int)) (fname : String) (arg : Expr)
    (p : String) (body : Expr)
    (hl : lookupFn fns fname = some (p, body)) :
    eval (n + 1) fns env (Expr.call fname arg) =
      (do
        let (va, ta) ← eval n fns env arg
        let (vb, tb) ← eval n fns [(p, va)] body
        pure (vb, ta ++ tb)) := by
  simp [eval, hl]

/-- Claim C3: the wrapper generated by eraser!(name, C) is the pure
identity: its body is exactly the parameter (no transformation), and at
runtime calling it on any value v returns v with an empty side-effect
trace. -/
theorem eraser_identity (nm : String) (tr : List String) (v : Int)
    (env : List (String × Int)) :
    (eraser nm tr).body = Expr.var (eraser nm tr).paramName ∧
    eval 2 [toEntry (eraser nm tr)] env (Expr.call nm (Expr.lit v)) =
      Except.ok (v, []) := by
  refine ⟨rfl, ?_⟩
  simp [eval, eraser, toEntry, lookupFn, lookupEnv]

/-- Claim C4: erase!(x, C) evaluates at runtime to the value x itself, with
no side effects, and the result behaves as x under the capability's
operations: adding it to y yields x + y, as in the crate's own example
erase!(10, Add) + 10 == 20. -/
theorem erase_runtime_identity (x y : Int) (tr : List String) :
    eval 3 [] [] (erase (Expr.lit x) tr) = Except.ok (x, []) ∧
    eval 4 [] [] (Expr.add (erase (Expr.lit x) tr) (Expr.lit y)) =
      Except.ok (x + y, []) :=
  ⟨rfl, rfl⟩

/-- Claim C7: eraser! is deterministic: the generated function definition
depends only on the supplied name and capability-set tokens, never on the
expansion context, so two invocations with identical arguments generate
identical function definitions. -/
theorem eraser_deterministic (c1 c2 : Nat) (nm : String) (tr : List String) :
    eraserExpandAt c1 nm tr = eraserExpandAt c2 nm tr := rfl

/-- Claim C5: erase!(v, C) is exactly the block that invokes the wrapper
generator with the fixed internal name f and the same capability tokens and
immediately applies the generated wrapper once to v (first conjunct, against
the spec-modelled expansion); and the generated function is not visible
outside the block: a call to f after the erase! expression is unbound
(second conjunct). -/
theorem erase_refines_eraser_block (v : Expr) (tr : List String) :
    erase v tr = eraseSpecModel v tr ∧
    eval 4 [] [] (Expr.add (erase (Expr.lit 5) tr) (Expr.call "f" (Expr.lit 1))) =
      Except.error RtError.unboundFn :=
  ⟨rfl, rfl⟩

/-- Claim C1, counterexample: the opaque return type of a single generated
wrapper is not the same type for every call to it.  The wrapper is generic,
so calling it on an i32 and on an i64 yields two distinct opaque types, and
a same-underlying-type operation on the two results is rejected. -/
theorem eraser_same_wrapper_not_always_combinable :
    sameTypeOpOk (opaqueRetTy 0 (eraser "e" ["MyTrait"]) "i32")
      (opaqueRetTy 0 (eraser "e" ["MyTrait"]) "i64") = false := by
  decide

/-- Claim C1, amended: for calls to the same generated wrapper whose
arguments have the same concrete type, the opaque return type is the same
type, so the two results can be combined under a same-underlying-type
operation; and at runtime the combination evaluates correctly (a + b yields
the sum, with no side effects). -/
theorem eraser_same_wrapper_combines (s : Nat) (nm : String) (tr : List String)
    (t : String) (a b : Int) (env : List (String × Int)) :
    sameTypeOpOk (opaqueRetTy s (eraser nm tr) t) (opaqueRetTy s (eraser nm tr) t) = true ∧
    eval 3 [toEntry (eraser nm tr)] env
      (Expr.add (Expr.call nm (Expr.lit a)) (Expr.call nm (Expr.lit b))) =
      Except.ok (a + b, []) := by
  refine ⟨by simp [sameTypeOpOk], ?_⟩
  simp [eval, eraser, toEntry, lookupFn, lookupEnv]

/-- Claim C2: two independent erase! invocations expand to two distinct
function definitions, hence two distinct definition sites, so their results
have distinct opaque types even for identical capability tokens and
identical concrete input types, and combining them under a
same-underlying-type operation is rejected. -/
theorem erase_distinct_sites_incompatible (s1 s2 : Nat) (tr : List String)
    (t1 t2 : String) (h : s1 ≠ s2) :
    sameTypeOpOk (eraseRetTy s1 tr t1) (eraseRetTy s2 tr t2) = false := by
  simp only [sameTypeOpOk, eraseRetTy, opaqueRetTy, decide_eq_false_iff_not]
  intro hc
  exact h (congrArg OpaqueId.defSite hc)

/-- Witness for claim C2 at concrete sites 0 and 1 with identical capability
tokens and identical concrete input types. -/
theorem erase_distinct_sites_incompatible_witness :
    (0 : Nat) ≠ 1 ∧
    sameTypeOpOk (eraseRetTy 0 ["Add"] "i64") (eraseRetTy 1 ["Add"] "i64") = false :=
  ⟨by decide, erase_distinct_sites_incompatible 0 1 ["Add"] "i64" "i64" (by decide)⟩

/-- Claim C9: the generated wrapper is generic, so its opaque return type is
minted per concrete instantiation of the type parameter, not once per
function: two calls to the same wrapper are type-compatible under a
same-underlying-type operation exactly when their arguments have the same
concrete type. -/
theorem eraser_opaque_per_instantiation (s : Nat) (nm : String)
    (tr : List String) (t1 t2 : String) :
    sameTypeOpOk (opaqueRetTy s (eraser nm tr) t1)
      (opaqueRetTy s (eraser nm tr) t2) = true ↔ t1 = t2 := by
  simp [sameTypeOpOk, opaqueRetTy, OpaqueId.mk.injEq]

/-- An item named f in the scope surrounding an erase! invocation, with a
body distinguishable from the identity (it adds 100). -/
def outerF : String × String × Expr :=
  ("f", "x", Expr.add (Expr.var "x") (Expr.lit 100))

/-- Claim C10: erase! binds its wrapper to the fixed identifier f, and this
item name is not hygienically isolated: inside the erase! block, the name f
resolves to the generated wrapper rather than to an outer item f (first
conjunct), so a value expression that calls f changes meaning — outside,
f(3) evaluates via the outer f to 103; inside erase!, the same expression
evaluates via the generated identity wrapper to 3. -/
theorem erase_captures_outer_name :
    lookupFn [toEntry (eraser "f" ["Tr"]), outerF] "f" =
      some ("val", Expr.var "val") ∧
    eval 3 [outerF] [] (Expr.call "f" (Expr.lit 3)) = Except.ok (103, []) ∧
    eval 4 [outerF] [] (erase (Expr.call "f" (Expr.lit 3)) ["Tr"]) =
      Except.ok (3, []) :=
  ⟨rfl, rfl, rfl⟩

/-- Claim C6: an erase! invocation evaluates the supplied value expression
exactly once and has no side effects beyond that evaluation: whatever value
and side-effect trace the value expression produces on a single evaluation
(in the block's scope), the whole erase! expression produces exactly that
value and exactly that trace. -/
theorem erase_evaluates_value_once (n : Nat)
    (fns : List (String × String × Expr)) (env : List (String × Int))
    (v : Expr) (tr : List String) (va : Int) (t : List Nat)
    (h : eval n (toEntry (eraser "f" tr) :: fns) env v = Except.ok (va, t)) :
    eval (n + 2) fns env (erase v tr) = Except.ok (va, t) := by
  match n with
  | 0 => exact absurd h (eval_zero_not_ok _ _ _ _ _)
  | m + 1 =>
    have e1 : eval (m + 1 + 2) fns env (erase v tr) =
        (do
          let (va, ta) ← eval (m + 1) (toEntry (eraser "f" tr) :: fns) env v
          let (vb, tb) ← eval (m + 1) (toEntry (eraser "f" tr) :: fns)
            [("val", va)] (Expr.var "val")
          pure (vb, ta ++ tb)) := rfl
    rw [e1, h, ok_bind]
    show Except.ok (va, t ++ []) = Except.ok (va, t)
    simp

/-- Witness for claim C6: the value expression performs side effect 7 and
yields 3; erase! of it yields 3 with exactly the one-element trace. -/
theorem erase_evaluates_value_once_witness :
    eval 2 (toEntry (eraser "f" ["Add"]) :: []) [] (Expr.eff 7 (Expr.lit 3)) =
      Except.ok (3, [7]) ∧
    eval 4 [] [] (erase (Expr.eff 7 (Expr.lit 3)) ["Add"]) = Except.ok (3, [7]) :=
  ⟨rfl, erase_evaluates_value_once 2 [] [] (Expr.eff 7 (Expr.lit 3)) ["Add"] 3 [7] rfl⟩

/-- Claim C8: the generated code has no runtime error path: the generated
wrapper's body is an infallible identity (first conjunct: evaluating the
body always succeeds, with no side effects), and a call to the generated
wrapper succeeds whenever its argument expression does — the wrapper
introduces no failure of its own (second conjunct). -/
theorem generated_code_no_runtime_error (nm : String) (tr : List String)
    (n : Nat) (fns : List (String × String × Expr))
    (env : List (String × Int)) (arg : Expr) (va : Int) (t : List Nat)
    (h : eval n (toEntry (eraser nm tr) :: fns) env arg = Except.ok (va, t)) :
    (∀ (w : Int) (fns2 : List (String × String × Expr))
        (env2 : List (String × Int)),
        eval 1 fns2 (((eraser nm tr).paramName, w) :: env2) (eraser nm tr).body =
          Except.ok (w, [])) ∧
    evalOk (eval (n + 1) (toEntry (eraser nm tr) :: fns) env
      (Expr.call nm arg)) = true := by
  refine ⟨fun w fns2 env2 => rfl, ?_⟩
  match n with
  | 0 => exact absurd h (eval_zero_not_ok _ _ _ _ _)
  | m + 1 =>
    have hl : lookupFn (toEntry (eraser nm tr) :: fns) nm =
        some ("val", Expr.var "val") := by
      simp [lookupFn, toEntry, eraser]
    rw [eval_call_ok (m + 1) _ _ _ _ _ _ hl, h]
    rfl

/-- Witness for claim C8: a concrete wrapper g on argument 7 with fuel 1 for
the argument evaluation. -/
theorem generated_code_no_runtime_error_witness :
    eval 1 (toEntry (eraser "g" ["Add"]) :: []) [] (Expr.lit 7) =
      Except.ok (7, []) ∧
    evalOk (eval 2 (toEntry (eraser "g" ["Add"]) :: []) []
      (Expr.call "g" (Expr.lit 7))) = true :=
  ⟨rfl, (generated_code_no_runtime_error "g" ["Add"] 1 [] [] (Expr.lit 7) 7 [] rfl).2⟩

end Whiteout
